import Mathlib

/-!
# pulp-clowder-test: translation of Clowder configuration into operator secrets

A shallow embedding of `main.go`.  Go strings are Lean strings, Go `int` is `Int`
(no arithmetic is performed on ports, so no wrap-around can occur), a `*string`
is an `Option String`, a slice is a `List`, and a `map[string]string` literal is
the association list of its entries in the order the literal writes them (Go
rejects duplicate constant keys in a map literal, so the keys are distinct).

The Kubernetes client is an external collaborator: it is a record of two
functions, and every operation returns, next to its result, the list of calls
it issued to that client.  A Go run-time panic is a result of its own.
-/

namespace PulpClowder

/-! ## Go run-time behaviour -/

/-- Go `error` values, identified by their message. -/
abbrev GoError := String

/-- Run-time panics raised by the Go run time. -/
inductive RuntimePanic where
  | indexOutOfRange (index length : Nat)
  | nilDereference
  deriving DecidableEq, Repr

/-- How a Go function call ends: it returns a value, or the goroutine panics. -/
inductive Outcome (α : Type) where
  | ret (a : α)
  | panic (p : RuntimePanic)
  deriving DecidableEq, Repr

/-- Sequencing of Go statements: a panic aborts what follows. -/
def Outcome.bind {α β : Type} (x : Outcome α) (f : α → Outcome β) : Outcome β :=
  match x with
  | .ret a => f a
  | .panic p => .panic p

/-- The slice index expression `xs[i]`: a bounds-checked access. -/
def index {α : Type} (xs : List α) (i : Nat) : Outcome α :=
  match xs.get? i with
  | some x => .ret x
  | none => .panic (.indexOutOfRange i xs.length)

/-- The text `fmt.Sprint` gives for an `int`: base ten, with a leading minus sign
for a negative number. -/
def Sprint (n : Int) : String :=
  match n with
  | .ofNat m => Nat.repr m
  | .negSucc m => "-" ++ Nat.repr (m + 1)

/-! ## Clowder configuration records (`app-common-go`), as `main.go` uses them -/

structure DatabaseConfig where
  AdminPassword : String
  AdminUsername : String
  Hostname : String
  Name : String
  Password : String
  Port : Int
  SslMode : String
  Username : String
  deriving DecidableEq, Repr

structure InMemoryDBConfig where
  Hostname : String
  Password : Option String
  Port : Int
  deriving DecidableEq, Repr

structure ObjectStoreBucket where
  AccessKey : Option String
  Name : String
  Region : Option String
  RequestedName : String
  SecretKey : Option String
  deriving DecidableEq, Repr

structure ObjectStoreConfig where
  AccessKey : Option String
  Buckets : List ObjectStoreBucket
  Hostname : String
  Port : Int
  SecretKey : Option String
  Tls : Bool
  deriving DecidableEq, Repr

/-! ## Kubernetes objects and the client -/

structure ObjectMeta where
  Name : String
  Namespace : String
  deriving DecidableEq, Repr

/-- The `corev1.Secret` fields that `main.go` sets. -/
structure Secret where
  ObjectMeta : ObjectMeta
  StringData : List (String × String)
  deriving DecidableEq, Repr

structure TypeMeta where
  Kind : String
  APIVersion : String
  deriving DecidableEq, Repr

structure Database where
  ExternalDBSecret : String
  deriving DecidableEq, Repr

structure Cache where
  ExternalCacheSecret : String
  deriving DecidableEq, Repr

/-- The field `Raw` of `runtime.RawExtension`. -/
structure RawExtension where
  Raw : String
  deriving DecidableEq, Repr

/-- The `pulp.PulpSpec` fields that `main.go` sets. -/
structure PulpSpec where
  Database : Database
  Cache : Cache
  ObjectStorageS3Secret : String
  PulpSettings : RawExtension
  deriving DecidableEq, Repr

structure Pulp where
  TypeMeta : TypeMeta
  ObjectMeta : ObjectMeta
  Spec : PulpSpec
  deriving DecidableEq, Repr

/-- The request that the REST call chain of `createSampleCR` assembles. -/
structure RawRequest where
  AbsPath : String
  Namespace : String
  Resource : String
  Name : String
  Body : String
  deriving DecidableEq, Repr

/-- The two operations of the client that `main.go` calls. -/
structure Clientset where
  SecretsCreate : String → Secret → Except GoError Secret
  DoRaw : RawRequest → String × Option GoError

/-- A call received by the client. -/
inductive Call where
  | secretsCreate (ns : String) (secret : Secret)
  | doRaw (request : RawRequest)
  deriving DecidableEq, Repr

/-- The run of an operation: the calls it issued to the client, in order, and how
it ended. -/
structure Run (α : Type) where
  calls : List Call
  outcome : Outcome α

/-! ## The three secret mappers -/

/-- The map literal `secretData` of `createDBSecret`. -/
def createDBSecret_secretData (clowderSecret : DatabaseConfig) : List (String × String) :=
  [("POSTGRES_HOST", clowderSecret.Hostname),
   ("POSTGRES_PORT", Sprint clowderSecret.Port),
   ("POSTGRES_USERNAME", clowderSecret.Username),
   ("POSTGRES_PASSWORD", clowderSecret.Password),
   ("POSTGRES_DB_NAME", "pulp"),
   ("POSTGRES_SSLMODE", clowderSecret.SslMode)]

def createDBSecret (clientSet : Clientset) (clowderSecret : DatabaseConfig)
    (secretName ns : String) : Run (Except GoError Secret) :=
  let secretData := createDBSecret_secretData clowderSecret
  let secret : Secret :=
    { ObjectMeta := { Name := secretName, Namespace := ns }, StringData := secretData }
  { calls := [Call.secretsCreate ns secret],
    outcome := .ret (clientSet.SecretsCreate ns secret) }

/-- The map literal `secretData` of `createRedisSecret`, after the nil test on the
password. -/
def createRedisSecret_secretData (clowderSecret : InMemoryDBConfig) :
    List (String × String) :=
  let password := ""
  let password :=
    match clowderSecret.Password with
    | some p => p
    | none => password
  [("REDIS_HOST", clowderSecret.Hostname),
   ("REDIS_PORT", Sprint clowderSecret.Port),
   ("REDIS_PASSWORD", password),
   ("REDIS_DB", "")]

def createRedisSecret (clientSet : Clientset) (clowderSecret : InMemoryDBConfig)
    (secretName ns : String) : Run (Except GoError Secret) :=
  let secretData := createRedisSecret_secretData clowderSecret
  let secret : Secret :=
    { ObjectMeta := { Name := secretName, Namespace := ns }, StringData := secretData }
  { calls := [Call.secretsCreate ns secret],
    outcome := .ret (clientSet.SecretsCreate ns secret) }

/-- The statements of `createObjStorage` up to and including the map literal
`secretData`; each `Buckets[0]` is a bounds-checked access. -/
def createObjStorage_secretData (clowderSecret : ObjectStoreConfig) :
    Outcome (List (String × String)) :=
  let accessKey := ""
  let secretKey := ""
  let region := "us-east-1"
  let accessKey :=
    match clowderSecret.AccessKey with
    | some a => a
    | none => accessKey
  let secretKey :=
    match clowderSecret.SecretKey with
    | some s => s
    | none => secretKey
  (index clowderSecret.Buckets 0).bind fun b =>
  (match b.Region with
    | some _ =>
      (index clowderSecret.Buckets 0).bind fun b1 =>
        match b1.Region with
        | some r => .ret r
        | none => .panic .nilDereference
    | none => .ret secretKey).bind fun secretKey =>
  (index clowderSecret.Buckets 0).bind fun b2 =>
  .ret [("s3-access-key-id", accessKey),
        ("s3-secret-access-key", secretKey),
        ("s3-bucket-name", b2.Name),
        ("s3-region", region)]

def createObjStorage (clientSet : Clientset) (clowderSecret : ObjectStoreConfig)
    (secretName ns : String) : Run (Except GoError Secret) :=
  match createObjStorage_secretData clowderSecret with
  | .panic p => { calls := [], outcome := .panic p }
  | .ret secretData =>
    let secret : Secret :=
      { ObjectMeta := { Name := secretName, Namespace := ns }, StringData := secretData }
    { calls := [Call.secretsCreate ns secret],
      outcome := .ret (clientSet.SecretsCreate ns secret) }

/-! ## The sample custom resource -/

def pulpAPIVersion : String := "repo-manager.pulpproject.org/v1alpha1"

/-- The composite literal `&pulp.Pulp{...}` of `main`, with the constants of `main`
and the object-store configuration it reads as parameters. -/
def samplePulp (crName ns externalDBSecretName externalRedisSecretName s3SecretName : String)
    (objStorageFromClowder : ObjectStoreConfig) : Pulp :=
  { TypeMeta := { Kind := "Pulp", APIVersion := pulpAPIVersion },
    ObjectMeta := { Name := crName, Namespace := ns },
    Spec :=
      { Database := { ExternalDBSecret := externalDBSecretName },
        Cache := { ExternalCacheSecret := externalRedisSecretName },
        ObjectStorageS3Secret := s3SecretName,
        PulpSettings :=
          { Raw := "\x7b\"aws_s3_endpoint_url\": \"http://" ++ objStorageFromClowder.Hostname
              ++ "\"\x7d" } } }

/-- The function `createSampleCR`.  `json.Marshal` is a parameter: it returns a byte
string and an error, as in Go, and `body, _ := json.Marshal(pulp)` keeps the first
component only. -/
def createSampleCR (jsonMarshal : Pulp → String × Option GoError) (clientSet : Clientset)
    (pulp : Pulp) (ns crName : String) : Run (String × Option GoError) :=
  let body := (jsonMarshal pulp).1
  let request : RawRequest :=
    { AbsPath := "/apis/" ++ pulpAPIVersion,
      Namespace := ns,
      Resource := "pulps",
      Name := crName,
      Body := body }
  { calls := [Call.doRaw request], outcome := .ret (clientSet.DoRaw request) }

/-! ## The program `main` -/

/-- One statement after another: the calls accumulate and a panic ends the run. -/
def Run.andThen {α β : Type} (x : Run α) (f : α → Run β) : Run β :=
  match x.outcome with
  | .panic p => { calls := x.calls, outcome := .panic p }
  | .ret a => { calls := x.calls ++ (f a).calls, outcome := (f a).outcome }

def databaseSecretFromClowder : DatabaseConfig :=
  { AdminPassword := "pass",
    AdminUsername := "user",
    Hostname := "dbhost",
    Name := "dbname",
    Password := "dbpass",
    Port := 5432,
    SslMode := "disable",
    Username := "dbuser" }

def redisSecretFromClowder : InMemoryDBConfig :=
  { Hostname := "example.redis.local", Port := 6379, Password := none }

def objStorageFromClowder : ObjectStoreConfig :=
  { Hostname := "endpoint",
    Port := 9292,
    AccessKey := some "test",
    SecretKey := some "test",
    Tls := false,
    Buckets :=
      [{ AccessKey := some "test",
         SecretKey := some "test",
         RequestedName := "reqname",
         Name := "pulp",
         Region := none }] }

def externalDBSecretName : String := "external-database"
def externalRedisSecretName : String := "external-redis"
def s3SecretName : String := "test-s3"
def crName : String := "example-pulp"
/-- The constant `namespace` of `main`. -/
def namespaceName : String := "pulp"

/-- The body of `main`, from the first secret to the submission of the record.  What
`main` prints is not part of the model; an error returned by a step is printed and
the next step runs all the same. -/
def main (jsonMarshal : Pulp → String × Option GoError) (clientSet : Clientset) : Run Unit :=
  (createDBSecret clientSet databaseSecretFromClowder externalDBSecretName namespaceName).andThen
    fun _ =>
  (createRedisSecret clientSet redisSecretFromClowder externalRedisSecretName
    namespaceName).andThen fun _ =>
  (createObjStorage clientSet objStorageFromClowder s3SecretName namespaceName).andThen fun _ =>
  let pulp := samplePulp crName namespaceName externalDBSecretName externalRedisSecretName
    s3SecretName objStorageFromClowder
  (createSampleCR jsonMarshal clientSet pulp namespaceName crName).andThen fun _ =>
  { calls := [], outcome := .ret () }

/-! ## Vocabulary of the specification -/

/-- The value stored under a key of a payload. -/
def entry (payload : List (String × String)) (key : String) : Option String :=
  (payload.find? fun kv => kv.1 == key).map Prod.snd

/-- The keys of a payload. -/
def keys (payload : List (String × String)) : List String :=
  payload.map Prod.fst

/-- A key written in the upper-case style with underscores, as in POSTGRES_HOST:
upper-case letters separated by underscores only. -/
def upperUnderscoreStyle (key : String) : Bool :=
  key.data.all fun c => c.isUpper || c == '_'

/-- A key written in the lower-case hyphenated style: no upper-case letter and no
underscore. -/
def lowerHyphenStyle (key : String) : Bool :=
  key.data.all fun c => !c.isUpper && c != '_'

/-- The value of a string of decimal digits. -/
def decimalValue (digits : List Char) : Nat :=
  digits.foldl (fun acc c => 10 * acc + (c.toNat - '0'.toNat)) 0

/-- Reading of a decimal integer: an optional minus sign, then one or more digits. -/
def readDecimal (s : String) : Option Int :=
  match s.data with
  | '-' :: ds =>
    if ds ≠ [] ∧ ds.all Char.isDigit then some (-(decimalValue ds : Int)) else none
  | ds =>
    if ds ≠ [] ∧ ds.all Char.isDigit then some (decimalValue ds : Int) else none

/-- One or more decimal digits, the first of which is zero only when it is the only
one. -/
def digitsNoLeadingZero (ds : List Char) : Bool :=
  match ds with
  | [] => false
  | [d] => d.isDigit
  | d :: rest => d.isDigit && d != '0' && rest.all Char.isDigit

/-- The decimal numerals of the integers: digits without a leading zero, with a minus
sign in front for a negative number only. -/
def isDecimalNumeral (s : String) : Bool :=
  match s.data with
  | '-' :: ds => digitsNoLeadingZero ds && ds != ['0']
  | ds => digitsNoLeadingZero ds

/-! ## JSON texts (RFC 8259)

A JSON text is read one character at a time.  A text whose characters cannot be
split into JSON tokens is not a JSON text, whatever its nesting. -/

/-- The tokens of a JSON text.  A string token carries the characters between its
quotes, its escape sequences still undecoded. -/
inductive Token where
  | beginObject
  | endObject
  | beginArray
  | endArray
  | nameSeparator
  | valueSeparator
  | string (body : List Char)
  | number
  | true
  | false
  | null
  deriving DecidableEq, Repr

/-- Where the reader stands inside a number. -/
inductive NumState where
  | minus
  | zero
  | int
  | point
  | frac
  | e
  | esign
  | exp
  deriving DecidableEq, Repr

/-- What the reader is in the middle of.  The body of a string is kept reversed. -/
inductive LexMode where
  | idle
  | inString (body : List Char)
  | escape (body : List Char)
  | hex (body : List Char) (left : Nat)
  | inNumber (st : NumState)
  | inWord (rest : List Char) (tok : Token)
  deriving DecidableEq, Repr

/-- The reader: the tokens read so far, last one first, and the current mode. -/
structure Lexer where
  tokens : List Token
  mode : LexMode
  deriving DecidableEq, Repr

/-- The next state of a number on one more character, if that character continues
the number. -/
def NumState.next (st : NumState) (c : Char) : Option NumState :=
  match st with
  | .minus => if c = '0' then some .zero else if c.isDigit then some .int else none
  | .zero => if c = '.' then some .point else if c = 'e' ∨ c = 'E' then some .e else none
  | .int =>
    if c.isDigit then some .int
    else if c = '.' then some .point
    else if c = 'e' ∨ c = 'E' then some .e
    else none
  | .point => if c.isDigit then some .frac else none
  | .frac =>
    if c.isDigit then some .frac
    else if c = 'e' ∨ c = 'E' then some .e
    else none
  | .e => if c = '+' ∨ c = '-' then some .esign else if c.isDigit then some .exp else none
  | .esign => if c.isDigit then some .exp else none
  | .exp => if c.isDigit then some .exp else none

/-- The states in which a number may end. -/
def NumState.complete (st : NumState) : Bool :=
  match st with
  | .zero | .int | .frac | .exp => Bool.true
  | _ => Bool.false

def isHexDigit (c : Char) : Bool :=
  c.isDigit || ('a' ≤ c && c ≤ 'f') || ('A' ≤ c && c ≤ 'F')

/-- A character met between two tokens. -/
def Lexer.start (toks : List Token) (c : Char) : Option Lexer :=
  if c = ' ' ∨ c = '\t' ∨ c = '\n' ∨ c = '\r' then some ⟨toks, .idle⟩
  else if c = '\x7b' then some ⟨.beginObject :: toks, .idle⟩
  else if c = '\x7d' then some ⟨.endObject :: toks, .idle⟩
  else if c = '[' then some ⟨.beginArray :: toks, .idle⟩
  else if c = ']' then some ⟨.endArray :: toks, .idle⟩
  else if c = ':' then some ⟨.nameSeparator :: toks, .idle⟩
  else if c = ',' then some ⟨.valueSeparator :: toks, .idle⟩
  else if c = '\x22' then some ⟨toks, .inString []⟩
  else if c = '-' then some ⟨toks, .inNumber .minus⟩
  else if c = '0' then some ⟨toks, .inNumber .zero⟩
  else if c.isDigit then some ⟨toks, .inNumber .int⟩
  else if c = 't' then some ⟨toks, .inWord ['r', 'u', 'e'] .true⟩
  else if c = 'f' then some ⟨toks, .inWord ['a', 'l', 's', 'e'] .false⟩
  else if c = 'n' then some ⟨toks, .inWord ['u', 'l', 'l'] .null⟩
  else none

/-- One character of input; `none` when no JSON text continues this way. -/
def Lexer.step (l : Lexer) (c : Char) : Option Lexer :=
  match l.mode with
  | .idle => Lexer.start l.tokens c
  | .inString body =>
    if c = '\x22' then some ⟨.string body.reverse :: l.tokens, .idle⟩
    else if c = '\x5c' then some ⟨l.tokens, .escape (c :: body)⟩
    else if c.toNat < 0x20 then none
    else some ⟨l.tokens, .inString (c :: body)⟩
  | .escape body =>
    if c = '\x22' ∨ c = '\x5c' ∨ c = '/' ∨ c = 'b' ∨ c = 'f' ∨ c = 'n' ∨ c = 'r' ∨ c = 't' then
      some ⟨l.tokens, .inString (c :: body)⟩
    else if c = 'u' then some ⟨l.tokens, .hex (c :: body) 4⟩
    else none
  | .hex body left =>
    if isHexDigit c then
      if left ≤ 1 then some ⟨l.tokens, .inString (c :: body)⟩
      else some ⟨l.tokens, .hex (c :: body) (left - 1)⟩
    else none
  | .inNumber st =>
    match st.next c with
    | some st1 => some ⟨l.tokens, .inNumber st1⟩
    | none => if st.complete then Lexer.start (.number :: l.tokens) c else none
  | .inWord rest tok =>
    match rest with
    | [] => none
    | r :: rest1 =>
      if c = r then
        if rest1 = [] then some ⟨tok :: l.tokens, .idle⟩ else some ⟨l.tokens, .inWord rest1 tok⟩
      else none

/-- The reader run over a whole input. -/
def Lexer.run (l : Lexer) (input : List Char) : Option Lexer :=
  match input with
  | [] => some l
  | c :: rest =>
    match l.step c with
    | some l1 => Lexer.run l1 rest
    | none => none

/-- The tokens left when the input ends, if it may end here. -/
def Lexer.finish (l : Lexer) : Option (List Token) :=
  match l.mode with
  | .idle => some l.tokens.reverse
  | .inNumber st => if st.complete then some (Token.number :: l.tokens).reverse else none
  | _ => none

/-- The tokens of a text, or `none` when the text is not made of JSON tokens. -/
def jsonTokens (text : String) : Option (List Token) :=
  (Lexer.run ⟨[], .idle⟩ text.data).bind Lexer.finish

def hexValue (c : Char) : Nat :=
  if c.isDigit then c.toNat - '0'.toNat
  else if 'a' ≤ c ∧ c ≤ 'f' then c.toNat - 'a'.toNat + 10
  else c.toNat - 'A'.toNat + 10

/-- The character an escape letter stands for. -/
def escaped (c : Char) : Char :=
  if c = 'b' then '\x08'
  else if c = 'f' then '\x0c'
  else if c = 'n' then '\n'
  else if c = 'r' then '\r'
  else if c = 't' then '\t'
  else c

/-- The body of a string token as UTF-16 code units and code points: an escape
sequence is replaced by what it denotes. -/
def unescapeUnits : List Char → List Nat
  | '\x5c' :: 'u' :: a :: b :: c :: d :: rest =>
    (((hexValue a * 16 + hexValue b) * 16 + hexValue c) * 16 + hexValue d) :: unescapeUnits rest
  | '\x5c' :: c :: rest => (escaped c).toNat :: unescapeUnits rest
  | c :: rest => c.toNat :: unescapeUnits rest
  | [] => []

/-- Pairing of surrogates: a high surrogate followed by a low one is one character,
a surrogate on its own is the replacement character. -/
def joinSurrogates : List Nat → List Char
  | hi :: lo :: rest =>
    if 0xD800 ≤ hi ∧ hi < 0xDC00 ∧ 0xDC00 ≤ lo ∧ lo < 0xE000 then
      Char.ofNat (0x10000 + (hi - 0xD800) * 0x400 + (lo - 0xDC00)) :: joinSurrogates rest
    else if 0xD800 ≤ hi ∧ hi < 0xE000 then '\uFFFD' :: joinSurrogates (lo :: rest)
    else Char.ofNat hi :: joinSurrogates (lo :: rest)
  | [u] => if 0xD800 ≤ u ∧ u < 0xE000 then ['\uFFFD'] else [Char.ofNat u]
  | [] => []

/-- The string a string token denotes. -/
def unescape (body : List Char) : String :=
  ⟨joinSurrogates (unescapeUnits body)⟩

/-- The text is a JSON object with the single member `key`, whose value is a string
that denotes `value`. -/
def isSingleStringObject (text key value : String) : Bool :=
  match jsonTokens text with
  | some [.beginObject, .string k, .nameSeparator, .string v, .endObject] =>
    unescape k == key && unescape v == value
  | _ => Bool.false

/-- A character that a JSON string may contain as it stands. -/
def plainChar (c : Char) : Bool :=
  c != '\x22' && c != '\x5c' && decide (0x20 ≤ c.toNat)

/-! ## Sample collaborators -/

/-- A client that stores whatever it is given and reports no error. -/
def acceptingClient : Clientset :=
  { SecretsCreate := fun _ secret => .ok secret,
    DoRaw := fun request => (request.Body, none) }

/-- A serializer that fails on every record: it returns no bytes and an error.  It
stands for a failing call of `json.Marshal` and for nothing else. -/
def refusingMarshal (_ : Pulp) : String × Option GoError :=
  ("", some ("json: error calling MarshalJSON for type runtime.RawExtension: "
    ++ "invalid character 'b' after object key:value pair"))

/-- The cache payload as the specification words it. -/
def specRedisPayload : List (String × String) :=
  [("host", "example.redis.local"), ("port", "6379"), ("password", ""), ("db-index", "")]

/-- The object-store payload as the specification words it. -/
def specObjStoragePayload : List (String × String) :=
  [("access-key-id", "test"), ("secret-access-key", "test"), ("bucket-name", "pulp"),
   ("region", "us-east-1")]

/-! # Theorems -/

/-! ## Decimal rendering -/

/-- One more digit on the right multiplies the value by ten and adds the digit. -/
theorem decimalValue_append_singleton (l : List Char) (c : Char) :
    decimalValue (l ++ [c]) = 10 * decimalValue l + (c.toNat - '0'.toNat) := by
  simp [decimalValue, List.foldl_append]

/-- The character of a digit below ten is a decimal digit with that value. -/
theorem digitChar_isDigit (d : Nat) (h : d < 10) :
    (Nat.digitChar d).isDigit = true ∧ (Nat.digitChar d).toNat - '0'.toNat = d := by
  interval_cases d <;> decide

/-- With enough fuel the digit loop puts, in front of the digits it was given, a
non-empty string of decimal digits whose value is the number. -/
theorem toDigitsCore_spec (fuel : Nat) :
    ∀ n ds, n < fuel → ∃ l : List Char, l ≠ [] ∧ l.all Char.isDigit = true ∧
      decimalValue l = n ∧ Nat.toDigitsCore 10 fuel n ds = l ++ ds := by
  induction fuel with
  | zero => intro n ds h; omega
  | succ fuel ih =>
    intro n ds h
    obtain ⟨hd1, hd2⟩ := digitChar_isDigit (n % 10) (Nat.mod_lt _ (by decide))
    by_cases h0 : n / 10 = 0
    · refine ⟨[Nat.digitChar (n % 10)], by simp, by simp [hd1], ?_, ?_⟩
      · have hn : n % 10 = n := Nat.mod_eq_of_lt (by omega)
        have h48 : '0'.toNat = 48 := rfl
        rw [h48] at hd2
        simp [decimalValue]
        omega
      · simp [Nat.toDigitsCore, h0]
    · obtain ⟨l, hl1, hl2, hl3, hl4⟩ := ih (n / 10) (Nat.digitChar (n % 10) :: ds) (by omega)
      refine ⟨l ++ [Nat.digitChar (n % 10)], by simp, ?_, ?_, ?_⟩
      · simp [List.all_append, hl2, hd1]
      · rw [decimalValue_append_singleton, hl3, hd2]; omega
      · simp [Nat.toDigitsCore, h0, hl4]

/-- The decimal text of a natural number is a non-empty digit string with that
value. -/
theorem repr_spec (n : Nat) : ∃ l : List Char, l ≠ [] ∧ l.all Char.isDigit = true ∧
    decimalValue l = n ∧ (Nat.repr n).data = l := by
  obtain ⟨l, h1, h2, h3, h4⟩ := toDigitsCore_spec (n + 1) n [] (by omega)
  exact ⟨l, h1, h2, h3, by simp [Nat.repr, Nat.toDigits, h4, List.asString]⟩

/-- Reading back the text that `Sprint` gives for an integer yields that integer. -/
theorem readDecimal_Sprint (n : Int) : readDecimal (Sprint n) = some n := by
  cases n with
  | ofNat m =>
    obtain ⟨l, h1, h2, h3, h4⟩ := repr_spec m
    cases l with
    | nil => exact absurd rfl h1
    | cons c t =>
      have hc : c ≠ '-' := by
        intro hc
        subst hc
        simp at h2
      unfold readDecimal Sprint
      simp only [h4]
      split
      · rename_i heq
        simp at heq
        exact absurd heq.1 hc
      · simp [h2, h3]
  | negSucc m =>
    obtain ⟨l, h1, h2, h3, h4⟩ := repr_spec (m + 1)
    unfold readDecimal Sprint
    have : ("-" ++ Nat.repr (m + 1)).data = '-' :: l := by
      simp [String.data_append, h4]
    simp only [this]
    simp [h1, h2, h3, Int.negSucc_eq]

/-- With enough fuel the digit loop starts the text of a positive number with a
character other than zero. -/
theorem toDigitsCore_head (fuel : Nat) :
    ∀ n ds, n < fuel → 0 < n →
      ∃ c t, Nat.toDigitsCore 10 fuel n ds = c :: t ∧ c ≠ '0' := by
  induction fuel with
  | zero => intro n ds h; omega
  | succ fuel ih =>
    intro n ds h hpos
    by_cases h0 : n / 10 = 0
    · refine ⟨Nat.digitChar (n % 10), ds, by simp [Nat.toDigitsCore, h0], ?_⟩
      have hn : n % 10 = n := Nat.mod_eq_of_lt (by omega)
      have hlt : n < 10 := by omega
      rw [hn]
      interval_cases n <;> decide
    · obtain ⟨c, t, h1, h2⟩ := ih (n / 10) (Nat.digitChar (n % 10) :: ds) (by omega) (by omega)
      exact ⟨c, t, by simp [Nat.toDigitsCore, h0, h1], h2⟩

/-- The decimal text of a natural number has no leading zero. -/
theorem repr_noLeadingZero (n : Nat) : digitsNoLeadingZero (Nat.repr n).data = true := by
  obtain ⟨l, h1, h2, _, h4⟩ := repr_spec n
  rcases Nat.eq_zero_or_pos n with h0 | hpos
  · subst h0; decide
  · obtain ⟨c, t, h5, h6⟩ := toDigitsCore_head (n + 1) n [] (by omega) hpos
    have h7 : (Nat.repr n).data = c :: t := by
      simp [Nat.repr, Nat.toDigits, h5, List.asString]
    rw [h7] at h4
    subst h4
    simp only [List.all_cons, Bool.and_eq_true] at h2
    cases t with
    | nil => simp [h7, digitsNoLeadingZero, h2.1]
    | cons d t => simp [h7, digitsNoLeadingZero, h2.1, h6, h2.2]

/-- The text that `Sprint` gives for an integer is a decimal numeral. -/
theorem isDecimalNumeral_Sprint (n : Int) : isDecimalNumeral (Sprint n) = true := by
  cases n with
  | ofNat m =>
    have h := repr_noLeadingZero m
    unfold isDecimalNumeral Sprint
    split
    · rename_i ds heq
      simp only at heq
      rw [heq] at h
      cases ds with
      | nil => simp [digitsNoLeadingZero] at h
      | cons d t =>
        cases t <;> simp [digitsNoLeadingZero] at h
    · exact h
  | negSucc m =>
    have h := repr_noLeadingZero (m + 1)
    obtain ⟨c, t, h5, h6⟩ := toDigitsCore_head (m + 1 + 1) (m + 1) [] (by omega) (by omega)
    have h7 : (Nat.repr (m + 1)).data = c :: t := by
      simp [Nat.repr, Nat.toDigits, h5, List.asString]
    unfold isDecimalNumeral Sprint
    have hd : ("-" ++ Nat.repr (m + 1)).data = '-' :: c :: t := by
      simp [String.data_append, h7]
    simp only [hd]
    rw [h7] at h
    simp [h, h6]

/-- The digit fold started from an accumulator shifts the accumulator by the number
of digits read. -/
theorem decimalValue_foldl (t : List Char) :
    ∀ acc : Nat, t.foldl (fun acc c => 10 * acc + (c.toNat - '0'.toNat)) acc
      = acc * 10 ^ t.length + decimalValue t := by
  induction t with
  | nil => intro acc; simp [decimalValue]
  | cons c t ih =>
    intro acc
    simp only [List.foldl_cons, decimalValue, List.length_cons]
    rw [ih, ih (10 * 0 + (c.toNat - '0'.toNat))]
    ring

/-- The value of a digit string is its first digit, shifted, plus the value of the
rest. -/
theorem decimalValue_cons (c : Char) (t : List Char) :
    decimalValue (c :: t) = (c.toNat - '0'.toNat) * 10 ^ t.length + decimalValue t := by
  have h := decimalValue_foldl t (10 * 0 + (c.toNat - '0'.toNat))
  simp only [decimalValue, List.foldl_cons] at h ⊢
  rw [h]
  ring

/-- The decimal digits are the characters 48 to 57. -/
theorem isDigit_bounds (c : Char) (h : c.isDigit = true) : 48 ≤ c.toNat ∧ c.toNat ≤ 57 := by
  simp only [Char.isDigit, Bool.and_eq_true, decide_eq_true_eq] at h
  have h1 : (48 : UInt32).toNat ≤ c.val.toNat := h.1
  have h2 : c.val.toNat ≤ (57 : UInt32).toNat := h.2
  exact ⟨h1, h2⟩

/-- A string of k digits has a value below the k-th power of ten. -/
theorem decimalValue_lt (t : List Char) (h : t.all Char.isDigit = true) :
    decimalValue t < 10 ^ t.length := by
  induction t with
  | nil => simp [decimalValue]
  | cons c t ih =>
    simp only [List.all_cons, Bool.and_eq_true] at h
    have hb := isDigit_bounds c h.1
    have h48 : '0'.toNat = 48 := rfl
    have := ih h.2
    rw [decimalValue_cons, h48, List.length_cons, pow_succ]
    have hv : c.toNat - 48 ≤ 9 := by omega
    have hm : (c.toNat - 48) * 10 ^ t.length ≤ 9 * 10 ^ t.length :=
      Nat.mul_le_mul_right _ hv
    omega


/-- Two digits with the same value are the same character. -/
theorem digit_eq_of_value (c d : Char) (hc : c.isDigit = true) (hd : d.isDigit = true)
    (h : c.toNat - '0'.toNat = d.toNat - '0'.toNat) : c = d := by
  have h1 := isDigit_bounds c hc
  have h2 := isDigit_bounds d hd
  have h48 : '0'.toNat = 48 := rfl
  rw [h48] at h
  have h3 : c.toNat = d.toNat := by omega
  rw [← Char.ofNat_toNat c, ← Char.ofNat_toNat d, h3]

/-- Two digit strings of the same length and value are equal. -/
theorem digits_eq_of_value (l1 : List Char) :
    ∀ l2 : List Char, l1.length = l2.length → l1.all Char.isDigit = true →
      l2.all Char.isDigit = true → decimalValue l1 = decimalValue l2 → l1 = l2 := by
  induction l1 with
  | nil =>
    intro l2 hl _ _ _
    exact (List.length_eq_zero.mp hl.symm).symm
  | cons c t ih =>
    intro l2 hl h1 h2 hv
    cases l2 with
    | nil => simp at hl
    | cons d u =>
      simp only [List.length_cons, Nat.add_right_cancel_iff] at hl
      simp only [List.all_cons, Bool.and_eq_true] at h1 h2
      rw [decimalValue_cons, decimalValue_cons, hl] at hv
      have b1 := decimalValue_lt t h1.2
      have b2 := decimalValue_lt u h2.2
      rw [hl] at b1
      have hpos : 0 < 10 ^ u.length := Nat.pow_pos (by decide)
      have hq : c.toNat - '0'.toNat = d.toNat - '0'.toNat := by
        have e1 : ((c.toNat - '0'.toNat) * 10 ^ u.length + decimalValue t) / 10 ^ u.length
            = c.toNat - '0'.toNat := by
          rw [Nat.add_comm, Nat.add_mul_div_right _ _ hpos, Nat.div_eq_of_lt b1, Nat.zero_add]
        have e2 : ((d.toNat - '0'.toNat) * 10 ^ u.length + decimalValue u) / 10 ^ u.length
            = d.toNat - '0'.toNat := by
          rw [Nat.add_comm, Nat.add_mul_div_right _ _ hpos, Nat.div_eq_of_lt b2, Nat.zero_add]
        rw [← e1, ← e2, hv]
      have hr : decimalValue t = decimalValue u := by
        rw [hq] at hv
        exact Nat.add_left_cancel hv
      rw [digit_eq_of_value c d h1.1 h2.1 hq, ih u hl h1.2 h2.2 hr]


/-- A digit string without leading zero is not empty, is made of digits, and, when
it has k + 1 digits with k positive, has a value of at least the k-th power of
ten. -/
theorem noLeadingZero_props (l : List Char) (h : digitsNoLeadingZero l = true) :
    l ≠ [] ∧ l.all Char.isDigit = true ∧
      (2 ≤ l.length → 10 ^ (l.length - 1) ≤ decimalValue l) := by
  cases l with
  | nil => simp [digitsNoLeadingZero] at h
  | cons d t =>
    cases t with
    | nil =>
      simp only [digitsNoLeadingZero] at h
      exact ⟨by simp, by simp [h], by simp⟩
    | cons e u =>
      simp only [digitsNoLeadingZero, Bool.and_eq_true, bne_iff_ne, ne_eq] at h
      obtain ⟨⟨h1, h2⟩, h3⟩ := h
      refine ⟨by simp, by simp [List.all_cons, h1, h3], fun _ => ?_⟩
      have hb := isDigit_bounds d h1
      have h48 : '0'.toNat = 48 := rfl
      have hne : d.toNat ≠ 48 := by
        intro he
        apply h2
        rw [← Char.ofNat_toNat d, he]
      rw [decimalValue_cons, h48]
      have hv : 1 ≤ d.toNat - 48 := by omega
      have hm : 1 * 10 ^ (e :: u).length ≤ (d.toNat - 48) * 10 ^ (e :: u).length :=
        Nat.mul_le_mul_right _ hv
      simp only [List.length_cons, Nat.add_sub_cancel] at hm ⊢
      omega

/-- Two digit strings without leading zero and with the same value are equal. -/
theorem noLeadingZero_unique (l1 l2 : List Char) (h1 : digitsNoLeadingZero l1 = true)
    (h2 : digitsNoLeadingZero l2 = true) (hv : decimalValue l1 = decimalValue l2) :
    l1 = l2 := by
  obtain ⟨n1, d1, g1⟩ := noLeadingZero_props l1 h1
  obtain ⟨n2, d2, g2⟩ := noLeadingZero_props l2 h2
  have b1 := decimalValue_lt l1 d1
  have b2 := decimalValue_lt l2 d2
  have p1 : 0 < l1.length := List.length_pos.mpr n1
  have p2 : 0 < l2.length := List.length_pos.mpr n2
  have hlen : l1.length = l2.length := by
    rcases Nat.lt_trichotomy l1.length l2.length with hlt | heq | hgt
    · have := g2 (by omega)
      have hp : 10 ^ l1.length ≤ 10 ^ (l2.length - 1) :=
        Nat.pow_le_pow_right (by decide) (by omega)
      omega
    · exact heq
    · have := g1 (by omega)
      have hp : 10 ^ l2.length ≤ 10 ^ (l1.length - 1) :=
        Nat.pow_le_pow_right (by decide) (by omega)
      omega
  exact digits_eq_of_value l1 l2 hlen d1 d2 hv

/-- The text of `Sprint` is the only decimal numeral that reads as the integer. -/
theorem Sprint_unique (s : String) (n : Int) (hs : isDecimalNumeral s = true)
    (hr : readDecimal s = some n) : s = Sprint n := by
  have key : ∀ m : Nat, ∀ ds : List Char, digitsNoLeadingZero ds = true →
      decimalValue ds = m → (Nat.repr m).data = ds := by
    intro m ds hc hm
    obtain ⟨l, _, _, h3, h4⟩ := repr_spec m
    have hcan := repr_noLeadingZero m
    exact noLeadingZero_unique _ _ hcan hc (by rw [h4, h3, hm])
  unfold isDecimalNumeral at hs
  unfold readDecimal at hr
  split at hs
  · rename_i ds heq
    simp only [heq] at hr
    simp only [Bool.and_eq_true, bne_iff_ne, ne_eq] at hs
    obtain ⟨hc, hz⟩ := hs
    obtain ⟨hne, hall, hbig⟩ := noLeadingZero_props ds hc
    rw [if_pos (And.intro hne hall)] at hr
    have hr := Option.some.inj hr
    have hpos : 0 < decimalValue ds := by
      cases ds with
      | nil => exact absurd rfl hne
      | cons d t =>
        cases t with
        | nil =>
          simp only [digitsNoLeadingZero] at hc
          have hb := isDigit_bounds d hc
          have hne48 : d.toNat ≠ 48 := by
            intro he
            apply hz
            rw [← Char.ofNat_toNat d, he]
          have h48 : '0'.toNat = 48 := rfl
          rw [decimalValue_cons, h48]
          simp [decimalValue]
          omega
        | cons e u =>
          have := hbig (by simp)
          have hp : 0 < 10 ^ ((d :: e :: u).length - 1) := Nat.pow_pos (by decide)
          omega
    obtain ⟨k, hk⟩ : ∃ k, decimalValue ds = k + 1 := ⟨decimalValue ds - 1, by omega⟩
    have hn : n = Int.negSucc k := by
      rw [← hr, hk, Int.negSucc_eq]
      push_cast
      ring
    have hd := key (k + 1) ds hc hk
    apply String.ext
    rw [heq, hn]
    simp [Sprint, String.data_append, hd]
  · rename_i ds hnot
    split at hr
    · rename_i ds2 heq
      exact absurd heq (hnot ds2)
    · obtain ⟨hne, hall, _⟩ := noLeadingZero_props _ hs
      rw [if_pos (And.intro hne hall)] at hr
      have hr := Option.some.inj hr
      have hd := key (decimalValue s.data) s.data hs rfl
      have hn : n = Int.ofNat (decimalValue s.data) := by
        rw [← hr]
        rfl
      apply String.ext
      rw [hn]
      simp [Sprint, hd]

/-- A text is the decimal numeral of an integer exactly when it is the text that
`Sprint` gives for that integer. -/
theorem Sprint_iff (n : Int) (s : String) :
    (isDecimalNumeral s = true ∧ readDecimal s = some n) ↔ s = Sprint n := by
  constructor
  · rintro ⟨h1, h2⟩
    exact Sprint_unique s n h1 h2
  · intro h
    subst h
    exact ⟨isDecimalNumeral_Sprint n, readDecimal_Sprint n⟩

/-! ## JSON reading of plain strings -/


/-- Reading two inputs one after the other is reading their concatenation. -/
theorem Lexer.run_append (l : Lexer) (a b : List Char) :
    Lexer.run l (a ++ b) = (Lexer.run l a).bind fun l1 => Lexer.run l1 b := by
  induction a generalizing l with
  | nil => simp [Lexer.run]
  | cons c a ih =>
    simp only [List.cons_append, Lexer.run]
    cases l.step c with
    | none => simp
    | some l1 => simpa using ih l1

/-- Inside a string, plain characters are collected as they come. -/
theorem Lexer.run_plain (toks : List Token) (s : List Char) :
    ∀ body, s.all plainChar = true →
      Lexer.run ⟨toks, .inString body⟩ s = some ⟨toks, .inString (s.reverse ++ body)⟩ := by
  induction s with
  | nil => intro body _; simp [Lexer.run]
  | cons c s ih =>
    intro body h
    simp only [List.all_cons, Bool.and_eq_true] at h
    obtain ⟨hc, hs⟩ := h
    simp only [plainChar, Bool.and_eq_true, bne_iff_ne, ne_eq, decide_eq_true_eq] at hc
    obtain ⟨⟨h1, h2⟩, h3⟩ := hc
    have hstep : Lexer.step ⟨toks, .inString body⟩ c = some ⟨toks, .inString (c :: body)⟩ := by
      simp [Lexer.step, h1, h2]
      omega
    simp [Lexer.run, hstep, ih (c :: body) hs]

/-- A body of plain characters holds no escape sequence. -/
theorem unescapeUnits_plain (s : List Char) (h : s.all plainChar = true) :
    unescapeUnits s = s.map Char.toNat := by
  induction s with
  | nil => simp [unescapeUnits]
  | cons c s ih =>
    simp only [List.all_cons, Bool.and_eq_true] at h
    obtain ⟨hc, hs⟩ := h
    simp only [plainChar, Bool.and_eq_true, bne_iff_ne, ne_eq, decide_eq_true_eq] at hc
    rw [unescapeUnits.eq_3]
    · simp [ih hs]
    · intro a b c1 d rest heq _
      exact hc.1.2 heq
    · intro c1 rest heq _
      exact hc.1.2 heq

/-- No character is a surrogate. -/
theorem char_not_surrogate (c : Char) : ¬ (0xD800 ≤ c.toNat ∧ c.toNat < 0xE000) := by
  have h := c.valid
  simp only [UInt32.isValidChar, Nat.isValidChar] at h
  simp only [Char.toNat]
  omega

/-- Pairing surrogates leaves the code points of characters as they are. -/
theorem joinSurrogates_chars (s : List Char) : joinSurrogates (s.map Char.toNat) = s := by
  induction s with
  | nil => simp [joinSurrogates]
  | cons c s ih =>
    have hc := char_not_surrogate c
    cases s with
    | nil => simp [joinSurrogates, hc]
    | cons d s =>
      have h1 : ¬ (0xD800 ≤ c.toNat ∧ c.toNat < 0xDC00 ∧ 0xDC00 ≤ d.toNat ∧ d.toNat < 0xE000) := by
        omega
      simp only [List.map_cons] at ih ⊢
      simp only [joinSurrogates, h1, hc, if_false, ih, Char.ofNat_toNat]

/-- A body of plain characters denotes itself. -/
theorem unescape_plain (s : List Char) (h : s.all plainChar = true) : unescape s = ⟨s⟩ := by
  simp [unescape, unescapeUnits_plain s h, joinSurrogates_chars]


/-- The characters of the settings blob: the template, the host name, the closing
quote and brace. -/
theorem settings_blob_data (cfg : ObjectStoreConfig) (a b c d e : String) :
    (samplePulp a b c d e cfg).Spec.PulpSettings.Raw.data
      = "\x7b\"aws_s3_endpoint_url\": \"http://".data ++ (cfg.Hostname.data ++ ['\x22', '\x7d']) := by
  simp [samplePulp, String.data_append]

/-! ## The claims -/

/-- Claim C1, on the code: for an object-store configuration with an empty bucket
list, `createObjStorage` hands nothing to the client, but it ends in the run-time
panic of an index out of range, not in a returned precondition error. -/
theorem createObjStorage_empty_buckets_panics (clientSet : Clientset)
    (clowderSecret : ObjectStoreConfig) (secretName ns : String)
    (h : clowderSecret.Buckets = []) :
    (createObjStorage clientSet clowderSecret secretName ns).calls = [] ∧
    (createObjStorage clientSet clowderSecret secretName ns).outcome
      = .panic (.indexOutOfRange 0 0) := by
  simp [createObjStorage, createObjStorage_secretData, index, Outcome.bind, h]

/-- The configuration of `main` with its bucket list emptied. -/
theorem createObjStorage_empty_buckets_panics_witness :
    ({ objStorageFromClowder with Buckets := [] } : ObjectStoreConfig).Buckets = [] ∧
    (createObjStorage acceptingClient { objStorageFromClowder with Buckets := [] }
      s3SecretName namespaceName).calls = [] ∧
    (createObjStorage acceptingClient { objStorageFromClowder with Buckets := [] }
      s3SecretName namespaceName).outcome = .panic (.indexOutOfRange 0 0) :=
  ⟨rfl, createObjStorage_empty_buckets_panics acceptingClient
    { objStorageFromClowder with Buckets := [] } s3SecretName namespaceName rfl⟩

/-- Claim C2: when the bucket list is not empty and its first bucket carries a region
override `r`, the payload of `createObjStorage` is built, its secret-access-key entry
is `r` whatever the top-level secret key is, and its region entry is the fallback
us-east-1; this payload is the one handed to the client. -/
theorem createObjStorage_region_override (clientSet : Clientset)
    (clowderSecret : ObjectStoreConfig) (b : ObjectStoreBucket)
    (rest : List ObjectStoreBucket) (r secretName ns : String)
    (hb : clowderSecret.Buckets = b :: rest) (hr : b.Region = some r) :
    ∃ payload, createObjStorage_secretData clowderSecret = .ret payload ∧
      entry payload "s3-secret-access-key" = some r ∧
      entry payload "s3-region" = some "us-east-1" ∧
      keys payload = ["s3-access-key-id", "s3-secret-access-key", "s3-bucket-name", "s3-region"] ∧
      (createObjStorage clientSet clowderSecret secretName ns).calls
        = [Call.secretsCreate ns
            { ObjectMeta := { Name := secretName, Namespace := ns }, StringData := payload }] := by
  simp [createObjStorage, createObjStorage_secretData, index, Outcome.bind, hb, hr, entry, keys]

/-- The configuration of `main` with another top-level secret key and a first bucket
in region eu-west-1. -/
theorem createObjStorage_region_override_witness :
    ∃ payload,
      createObjStorage_secretData
        { objStorageFromClowder with
          SecretKey := some "top-secret",
          Buckets := [{ AccessKey := none, Name := "pulp", Region := some "eu-west-1",
                        RequestedName := "reqname", SecretKey := none }] } = .ret payload ∧
      entry payload "s3-secret-access-key" = some "eu-west-1" ∧
      entry payload "s3-region" = some "us-east-1" ∧
      keys payload = ["s3-access-key-id", "s3-secret-access-key", "s3-bucket-name", "s3-region"] ∧
      (createObjStorage acceptingClient
        { objStorageFromClowder with
          SecretKey := some "top-secret",
          Buckets := [{ AccessKey := none, Name := "pulp", Region := some "eu-west-1",
                        RequestedName := "reqname", SecretKey := none }] }
        s3SecretName namespaceName).calls
        = [Call.secretsCreate namespaceName
            { ObjectMeta := { Name := s3SecretName, Namespace := namespaceName },
              StringData := payload }] :=
  createObjStorage_region_override acceptingClient _
    { AccessKey := none, Name := "pulp", Region := some "eu-west-1",
      RequestedName := "reqname", SecretKey := none } [] "eu-west-1" s3SecretName namespaceName
    rfl rfl

/-- Claim C3: for every database configuration the payload of `createDBSecret` is
built without failure and handed to the client; it has exactly six entries, the
host, the port, the user name, the password, the SSL mode, and the database name,
always pulp.  The port entry is the text `fmt.Sprint` gives for the integer port:
a decimal numeral (no leading zero, a minus sign for a negative number only) that
reads back as the port, and the only such text.  The name and the admin credentials of the input play no
part; the database of `main`, with port 5432, gives the port entry 5432. -/
theorem createDBSecret_payload (clientSet : Clientset) (clowderSecret : DatabaseConfig)
    (secretName ns : String) :
    (createDBSecret clientSet clowderSecret secretName ns).calls
      = [Call.secretsCreate ns
          { ObjectMeta := { Name := secretName, Namespace := ns },
            StringData := createDBSecret_secretData clowderSecret }] ∧
    (createDBSecret clientSet clowderSecret secretName ns).outcome
      = .ret (clientSet.SecretsCreate ns
          { ObjectMeta := { Name := secretName, Namespace := ns },
            StringData := createDBSecret_secretData clowderSecret }) ∧
    keys (createDBSecret_secretData clowderSecret)
      = ["POSTGRES_HOST", "POSTGRES_PORT", "POSTGRES_USERNAME", "POSTGRES_PASSWORD",
         "POSTGRES_DB_NAME", "POSTGRES_SSLMODE"] ∧
    (keys (createDBSecret_secretData clowderSecret)).Nodup ∧
    entry (createDBSecret_secretData clowderSecret) "POSTGRES_HOST"
      = some clowderSecret.Hostname ∧
    entry (createDBSecret_secretData clowderSecret) "POSTGRES_PORT"
      = some (Sprint clowderSecret.Port) ∧
    isDecimalNumeral (Sprint clowderSecret.Port) = true ∧
    readDecimal (Sprint clowderSecret.Port) = some clowderSecret.Port ∧
    (∀ text, (isDecimalNumeral text = true ∧ readDecimal text = some clowderSecret.Port)
      ↔ text = Sprint clowderSecret.Port) ∧
    entry (createDBSecret_secretData clowderSecret) "POSTGRES_USERNAME"
      = some clowderSecret.Username ∧
    entry (createDBSecret_secretData clowderSecret) "POSTGRES_PASSWORD"
      = some clowderSecret.Password ∧
    entry (createDBSecret_secretData clowderSecret) "POSTGRES_SSLMODE"
      = some clowderSecret.SslMode ∧
    entry (createDBSecret_secretData clowderSecret) "POSTGRES_DB_NAME" = some "pulp" ∧
    (∀ name adminUsername adminPassword,
      createDBSecret_secretData
          { clowderSecret with
            Name := name, AdminUsername := adminUsername, AdminPassword := adminPassword }
        = createDBSecret_secretData clowderSecret) ∧
    createDBSecret_secretData databaseSecretFromClowder
      = [("POSTGRES_HOST", "dbhost"), ("POSTGRES_PORT", "5432"),
         ("POSTGRES_USERNAME", "dbuser"), ("POSTGRES_PASSWORD", "dbpass"),
         ("POSTGRES_DB_NAME", "pulp"), ("POSTGRES_SSLMODE", "disable")] := by
  refine ⟨rfl, rfl, rfl, by simp [keys, createDBSecret_secretData], ?_, ?_,
    isDecimalNumeral_Sprint _, readDecimal_Sprint _, Sprint_iff _, ?_, ?_, ?_, ?_, ?_,
    by decide⟩
  · simp [createDBSecret_secretData, entry]
  · simp [createDBSecret_secretData, entry]
  · simp [createDBSecret_secretData, entry]
  · simp [createDBSecret_secretData, entry]
  · simp [createDBSecret_secretData, entry]
  · simp [createDBSecret_secretData, entry]
  · intro _ _ _; rfl

/-- Claim C4: the password entry of the payload of `createRedisSecret` is the empty
string when the input has no password, and the input password when it has one. -/
theorem createRedisSecret_password (hostname : String) (port : Int) :
    entry (createRedisSecret_secretData
      { Hostname := hostname, Port := port, Password := none }) "REDIS_PASSWORD" = some "" ∧
    ∀ p, entry (createRedisSecret_secretData
      { Hostname := hostname, Port := port, Password := some p }) "REDIS_PASSWORD" = some p := by
  simp [createRedisSecret_secretData, entry]

/-- Claim C5 as stated fails: for the object store of `main` (hostname endpoint, port
9292, access key test, one bucket named pulp, no region override) the payload of
`createObjStorage` is not the map with the keys access-key-id, secret-access-key,
bucket-name and region that the claim displays; the key access-key-id is absent and
the access key is stored under s3-access-key-id. -/
theorem createObjStorage_payload_not_as_worded :
    ¬ (∃ payload, createObjStorage_secretData objStorageFromClowder = .ret payload ∧
        ∀ key, entry payload key = entry specObjStoragePayload key) := by
  rintro ⟨payload, h, hk⟩
  have hp : payload = [("s3-access-key-id", "test"), ("s3-secret-access-key", "test"),
      ("s3-bucket-name", "pulp"), ("s3-region", "us-east-1")] := by
    have h2 : createObjStorage_secretData objStorageFromClowder
        = .ret [("s3-access-key-id", "test"), ("s3-secret-access-key", "test"),
            ("s3-bucket-name", "pulp"), ("s3-region", "us-east-1")] := by decide
    rw [h2] at h
    exact (Outcome.ret.inj h).symm
  have h3 := hk "access-key-id"
  rw [hp] at h3
  exact absurd h3 (by decide)

/-- Claim C5, amended: when the bucket list is not empty and its first bucket has no
region override, the payload of `createObjStorage` is exactly s3-access-key-id (the
top-level access key, or the empty string), s3-secret-access-key (the top-level
secret key, or the empty string), s3-bucket-name (the name of the first bucket) and
s3-region (us-east-1); nothing else of the input enters it. -/
theorem createObjStorage_payload (clowderSecret : ObjectStoreConfig) (b : ObjectStoreBucket)
    (rest : List ObjectStoreBucket)
    (hb : clowderSecret.Buckets = b :: rest) (hr : b.Region = none) :
    createObjStorage_secretData clowderSecret
      = .ret [("s3-access-key-id", clowderSecret.AccessKey.getD ""),
              ("s3-secret-access-key", clowderSecret.SecretKey.getD ""),
              ("s3-bucket-name", b.Name),
              ("s3-region", "us-east-1")] ∧
    ∀ hostname port tls accessKey secretKey requestedName others,
      createObjStorage_secretData
          { AccessKey := clowderSecret.AccessKey, SecretKey := clowderSecret.SecretKey,
            Hostname := hostname, Port := port, Tls := tls,
            Buckets :=
              { AccessKey := accessKey, SecretKey := secretKey, RequestedName := requestedName,
                Name := b.Name, Region := none } :: others }
        = createObjStorage_secretData clowderSecret := by
  cases ha : clowderSecret.AccessKey <;> cases hs : clowderSecret.SecretKey <;>
    simp [createObjStorage_secretData, index, Outcome.bind, hb, hr, ha, hs]

/-- The object store of `main`. -/
theorem createObjStorage_payload_witness :
    objStorageFromClowder.Buckets
      = { AccessKey := some "test", Name := "pulp", Region := none,
          RequestedName := "reqname", SecretKey := some "test" } :: [] ∧
    createObjStorage_secretData objStorageFromClowder
      = .ret [("s3-access-key-id", "test"),
              ("s3-secret-access-key", "test"),
              ("s3-bucket-name", "pulp"),
              ("s3-region", "us-east-1")] :=
  ⟨rfl, (createObjStorage_payload objStorageFromClowder
    { AccessKey := some "test", Name := "pulp", Region := none,
      RequestedName := "reqname", SecretKey := some "test" } [] rfl rfl).1⟩

/-- Claim C6 as stated fails: for the cache of `main` (hostname example.redis.local,
port 6379, no password) the payload of `createRedisSecret` is not the map with the
keys host, port, password and db-index that the claim displays. -/
theorem createRedisSecret_payload_not_as_worded :
    ¬ (∀ key, entry (createRedisSecret_secretData redisSecretFromClowder) key
        = entry specRedisPayload key) := by
  intro h
  exact absurd (h "host") (by decide)

/-- Claim C6, amended: for every cache configuration the payload of
`createRedisSecret` has exactly the four keys REDIS_HOST, REDIS_PORT, REDIS_PASSWORD
and REDIS_DB, with REDIS_HOST the input host name, REDIS_PORT the text `fmt.Sprint`
gives for the input port (a decimal numeral, with no leading zero and a minus sign for
a negative number only, that reads back as the port, and the only such text) and
REDIS_DB always the empty string; the cache of `main` gives example.redis.local, 6379, an empty password and an empty
REDIS_DB. -/
theorem createRedisSecret_payload (clowderSecret : InMemoryDBConfig) :
    keys (createRedisSecret_secretData clowderSecret)
      = ["REDIS_HOST", "REDIS_PORT", "REDIS_PASSWORD", "REDIS_DB"] ∧
    entry (createRedisSecret_secretData clowderSecret) "REDIS_HOST"
      = some clowderSecret.Hostname ∧
    entry (createRedisSecret_secretData clowderSecret) "REDIS_PORT"
      = some (Sprint clowderSecret.Port) ∧
    isDecimalNumeral (Sprint clowderSecret.Port) = true ∧
    readDecimal (Sprint clowderSecret.Port) = some clowderSecret.Port ∧
    (∀ text, (isDecimalNumeral text = true ∧ readDecimal text = some clowderSecret.Port)
      ↔ text = Sprint clowderSecret.Port) ∧
    entry (createRedisSecret_secretData clowderSecret) "REDIS_DB" = some "" ∧
    createRedisSecret_secretData redisSecretFromClowder
      = [("REDIS_HOST", "example.redis.local"), ("REDIS_PORT", "6379"),
         ("REDIS_PASSWORD", ""), ("REDIS_DB", "")] := by
  refine ⟨by simp [keys, createRedisSecret_secretData], ?_, ?_,
    isDecimalNumeral_Sprint _, readDecimal_Sprint _, Sprint_iff _, ?_, by decide⟩
  · simp [createRedisSecret_secretData, entry]
  · simp [createRedisSecret_secretData, entry]
  · simp [createRedisSecret_secretData, entry]

/-- Claim C7 as stated fails: the cache payload of `main` has a key that is not in
the lower-case hyphenated style. -/
theorem redis_keys_not_lowerHyphen :
    ¬ (∀ key ∈ keys (createRedisSecret_secretData redisSecretFromClowder),
        lowerHyphenStyle key = true) := by
  intro h
  exact absurd (h "REDIS_HOST" (by decide)) (by decide)

/-- Claim C7, amended: for every input, every key of the database payload and every
key of the cache payload is in the upper-case style with underscores, and every key
of an object-store payload is lower-case and hyphenated. -/
theorem payload_key_styles (db : DatabaseConfig) (redis : InMemoryDBConfig)
    (obj : ObjectStoreConfig) :
    (keys (createDBSecret_secretData db)).all upperUnderscoreStyle = true ∧
    (keys (createRedisSecret_secretData redis)).all upperUnderscoreStyle = true ∧
    (match createObjStorage_secretData obj with
      | .ret payload => (keys payload).all lowerHyphenStyle = true
      | .panic _ => True) := by
  refine ⟨by simp [keys, createDBSecret_secretData]; decide,
    by simp [keys, createRedisSecret_secretData]; decide, ?_⟩
  have hk : ∀ payload, createObjStorage_secretData obj = .ret payload →
      keys payload
        = ["s3-access-key-id", "s3-secret-access-key", "s3-bucket-name", "s3-region"] := by
    intro payload h
    unfold createObjStorage_secretData at h
    cases hb : obj.Buckets with
    | nil => simp [index, Outcome.bind, hb] at h
    | cons b rest =>
      cases hr : b.Region <;>
        simp [index, Outcome.bind, hb, hr] at h <;> simp [← h, keys]
  split
  · rename_i payload h
    rw [hk payload h]
    decide
  · trivial

/-- Claim C8 as stated fails: the settings blob is the template with the host name
pasted in as it stands, and no host name is refused.  For the host name a"b the blob
is not a JSON text at all; for a host name with a line feed in it, neither; for the
host name a, backslash, n, b the blob is a JSON object whose value denotes a, line
feed, b, not the host name; and a host name that closes the string and goes on
injects a second member into the object. -/
theorem settings_blob_not_json :
    (samplePulp crName namespaceName externalDBSecretName externalRedisSecretName
        s3SecretName { objStorageFromClowder with Hostname := "a\"b" }).Spec.PulpSettings.Raw
      = "\x7b\"aws_s3_endpoint_url\": \"http://a\"b\"\x7d" ∧
    jsonTokens
      (samplePulp crName namespaceName externalDBSecretName externalRedisSecretName
        s3SecretName { objStorageFromClowder with Hostname := "a\"b" }).Spec.PulpSettings.Raw
      = none ∧
    isSingleStringObject
      (samplePulp crName namespaceName externalDBSecretName externalRedisSecretName
        s3SecretName { objStorageFromClowder with Hostname := "a\"b" }).Spec.PulpSettings.Raw
      "aws_s3_endpoint_url" "http://a\"b" = false ∧
    jsonTokens
      (samplePulp crName namespaceName externalDBSecretName externalRedisSecretName
        s3SecretName { objStorageFromClowder with Hostname := "a\nb" }).Spec.PulpSettings.Raw
      = none ∧
    jsonTokens
      (samplePulp crName namespaceName externalDBSecretName externalRedisSecretName
        s3SecretName { objStorageFromClowder with Hostname := "a\\nb" }).Spec.PulpSettings.Raw
      = some [.beginObject, .string "aws_s3_endpoint_url".data, .nameSeparator,
          .string "http://a\\nb".data, .endObject] ∧
    unescape "http://a\\nb".data = "http://a\nb" ∧
    isSingleStringObject
      (samplePulp crName namespaceName externalDBSecretName externalRedisSecretName
        s3SecretName { objStorageFromClowder with Hostname := "a\\nb" }).Spec.PulpSettings.Raw
      "aws_s3_endpoint_url" "http://a\\nb" = false ∧
    jsonTokens
      (samplePulp crName namespaceName externalDBSecretName externalRedisSecretName
        s3SecretName
        { objStorageFromClowder with Hostname := "x\", \"k\": \"v" }).Spec.PulpSettings.Raw
      = some [.beginObject, .string "aws_s3_endpoint_url".data, .nameSeparator,
          .string "http://x".data, .valueSeparator, .string "k".data, .nameSeparator,
          .string "v".data, .endObject] := by
  refine ⟨by decide, by decide, by decide, by decide, by decide, by decide, by decide,
    by decide⟩

/-- Claim C8, amended: for every object-store host name made of plain characters only
(no double quote, no backslash, no control character), the host name of `main` among
them, the settings blob placed in the record is a JSON text: the object with the
single key aws_s3_endpoint_url, whose string value denotes http:// followed by the
host name. -/
theorem settings_blob_plain_hostname (obj : ObjectStoreConfig)
    (crName0 ns dbName redisName s3Name : String)
    (h : obj.Hostname.data.all plainChar = true) :
    isSingleStringObject (samplePulp crName0 ns dbName redisName s3Name obj).Spec.PulpSettings.Raw
      "aws_s3_endpoint_url" ("http://" ++ obj.Hostname) = true := by
  have hpre : Lexer.run ⟨[], .idle⟩ "\x7b\"aws_s3_endpoint_url\": \"http://".data
      = some ⟨[.nameSeparator, .string "aws_s3_endpoint_url".data, .beginObject],
          .inString "http://".data.reverse⟩ := by decide
  have htok : jsonTokens (samplePulp crName0 ns dbName redisName s3Name obj).Spec.PulpSettings.Raw
      = some [.beginObject, .string "aws_s3_endpoint_url".data, .nameSeparator,
          .string ("http://".data ++ obj.Hostname.data), .endObject] := by
    unfold jsonTokens
    rw [settings_blob_data, Lexer.run_append, hpre, Option.some_bind, Lexer.run_append,
      Lexer.run_plain _ _ _ h]
    simp [Lexer.run, Lexer.step, Lexer.start, Lexer.finish]
  have hkey : unescape "aws_s3_endpoint_url".data = "aws_s3_endpoint_url" := by decide
  have hval : ("http://".data ++ obj.Hostname.data).all plainChar = true := by
    rw [List.all_append, h]
    decide
  simp only [isSingleStringObject, htok, hkey, unescape_plain _ hval]
  simp [String.ext_iff, String.data_append]

/-- The host name and the record of `main`. -/
theorem settings_blob_plain_hostname_witness :
    objStorageFromClowder.Hostname.data.all plainChar = true ∧
    isSingleStringObject
      (samplePulp crName namespaceName externalDBSecretName externalRedisSecretName
        s3SecretName objStorageFromClowder).Spec.PulpSettings.Raw
      "aws_s3_endpoint_url" ("http://" ++ objStorageFromClowder.Hostname) = true :=
  ⟨by decide,
   settings_blob_plain_hostname objStorageFromClowder crName namespaceName
    externalDBSecretName externalRedisSecretName s3SecretName (by decide)⟩

/-- Claim C9, on the code: when the serialization of the record fails, `createSampleCR`
drops the error, posts the bytes it was given, and returns what the client returns
for that request. -/
theorem createSampleCR_drops_marshal_error (jsonMarshal : Pulp → String × Option GoError)
    (clientSet : Clientset) (pulp : Pulp) (ns crName body : String) (e : GoError)
    (h : jsonMarshal pulp = (body, some e)) :
    (createSampleCR jsonMarshal clientSet pulp ns crName).calls
      = [Call.doRaw
          { AbsPath := "/apis/repo-manager.pulpproject.org/v1alpha1", Namespace := ns,
            Resource := "pulps", Name := crName, Body := body }] ∧
    (createSampleCR jsonMarshal clientSet pulp ns crName).outcome
      = .ret (clientSet.DoRaw
          { AbsPath := "/apis/repo-manager.pulpproject.org/v1alpha1", Namespace := ns,
            Resource := "pulps", Name := crName, Body := body }) := by
  have hv : "/apis/" ++ pulpAPIVersion = "/apis/repo-manager.pulpproject.org/v1alpha1" := by
    decide
  simp [createSampleCR, h, hv]

/-- The record built for the host name a"b, a serializer that fails and a client that
accepts every request: an empty body is posted and no error comes back. -/
theorem createSampleCR_drops_marshal_error_witness :
    refusingMarshal
        (samplePulp crName namespaceName externalDBSecretName externalRedisSecretName
          s3SecretName { objStorageFromClowder with Hostname := "a\"b" })
      = ("", some ("json: error calling MarshalJSON for type runtime.RawExtension: "
          ++ "invalid character 'b' after object key:value pair")) ∧
    (createSampleCR refusingMarshal acceptingClient
        (samplePulp crName namespaceName externalDBSecretName externalRedisSecretName
          s3SecretName { objStorageFromClowder with Hostname := "a\"b" })
        namespaceName crName).calls
      = [Call.doRaw
          { AbsPath := "/apis/repo-manager.pulpproject.org/v1alpha1", Namespace := namespaceName,
            Resource := "pulps", Name := crName, Body := "" }] ∧
    (createSampleCR refusingMarshal acceptingClient
        (samplePulp crName namespaceName externalDBSecretName externalRedisSecretName
          s3SecretName { objStorageFromClowder with Hostname := "a\"b" })
        namespaceName crName).outcome
      = .ret ("", none) :=
  ⟨rfl,
   createSampleCR_drops_marshal_error refusingMarshal acceptingClient
    (samplePulp crName namespaceName externalDBSecretName externalRedisSecretName
      s3SecretName { objStorageFromClowder with Hostname := "a\"b" })
    namespaceName crName ""
    ("json: error calling MarshalJSON for type runtime.RawExtension: "
      ++ "invalid character 'b' after object key:value pair")
    rfl⟩

/-- Claim C10: the record is a function of the record name, the namespace, the three
secret names and the object-store host name only.  Its database, cache and
object-storage references are the names, and its namespace the namespace, under
which the three secrets are handed to the client; its settings blob is the template
around the host name; changing any other field of the object-store configuration
leaves the record unchanged, so no credential reaches it; and `main` issues exactly
these four requests. -/
theorem samplePulp_references (jsonMarshal : Pulp → String × Option GoError)
    (clientSet : Clientset) (crName0 ns dbName redisName s3Name : String)
    (db : DatabaseConfig) (redis : InMemoryDBConfig) (obj : ObjectStoreConfig) :
    (createDBSecret clientSet db dbName ns).calls
      = [Call.secretsCreate (samplePulp crName0 ns dbName redisName s3Name obj).ObjectMeta.Namespace
          { ObjectMeta :=
              { Name := (samplePulp crName0 ns dbName redisName s3Name obj).Spec.Database.ExternalDBSecret,
                Namespace := (samplePulp crName0 ns dbName redisName s3Name obj).ObjectMeta.Namespace },
            StringData := createDBSecret_secretData db }] ∧
    (createRedisSecret clientSet redis redisName ns).calls
      = [Call.secretsCreate (samplePulp crName0 ns dbName redisName s3Name obj).ObjectMeta.Namespace
          { ObjectMeta :=
              { Name := (samplePulp crName0 ns dbName redisName s3Name obj).Spec.Cache.ExternalCacheSecret,
                Namespace := (samplePulp crName0 ns dbName redisName s3Name obj).ObjectMeta.Namespace },
            StringData := createRedisSecret_secretData redis }] ∧
    (createObjStorage clientSet obj s3Name ns).calls
      = (match createObjStorage_secretData obj with
          | .ret payload =>
            [Call.secretsCreate (samplePulp crName0 ns dbName redisName s3Name obj).ObjectMeta.Namespace
              { ObjectMeta :=
                  { Name := (samplePulp crName0 ns dbName redisName s3Name obj).Spec.ObjectStorageS3Secret,
                    Namespace := (samplePulp crName0 ns dbName redisName s3Name obj).ObjectMeta.Namespace },
                StringData := payload }]
          | .panic _ => []) ∧
    samplePulp crName0 ns dbName redisName s3Name obj
      = { TypeMeta := { Kind := "Pulp", APIVersion := "repo-manager.pulpproject.org/v1alpha1" },
          ObjectMeta := { Name := crName0, Namespace := ns },
          Spec :=
            { Database := { ExternalDBSecret := dbName },
              Cache := { ExternalCacheSecret := redisName },
              ObjectStorageS3Secret := s3Name,
              PulpSettings :=
                { Raw := "\x7b\"aws_s3_endpoint_url\": \"http://" ++ obj.Hostname ++ "\"\x7d" } } } ∧
    (∀ accessKey buckets port secretKey tls,
      samplePulp crName0 ns dbName redisName s3Name
          { AccessKey := accessKey, Buckets := buckets, Hostname := obj.Hostname, Port := port,
            SecretKey := secretKey, Tls := tls }
        = samplePulp crName0 ns dbName redisName s3Name obj) ∧
    (main jsonMarshal clientSet).calls
      = [Call.secretsCreate "pulp"
          { ObjectMeta := { Name := "external-database", Namespace := "pulp" },
            StringData := createDBSecret_secretData databaseSecretFromClowder },
         Call.secretsCreate "pulp"
          { ObjectMeta := { Name := "external-redis", Namespace := "pulp" },
            StringData := createRedisSecret_secretData redisSecretFromClowder },
         Call.secretsCreate "pulp"
          { ObjectMeta := { Name := "test-s3", Namespace := "pulp" },
            StringData :=
              [("s3-access-key-id", "test"), ("s3-secret-access-key", "test"),
               ("s3-bucket-name", "pulp"), ("s3-region", "us-east-1")] },
         Call.doRaw
          { AbsPath := "/apis/repo-manager.pulpproject.org/v1alpha1", Namespace := "pulp",
            Resource := "pulps", Name := "example-pulp",
            Body := (jsonMarshal
              (samplePulp "example-pulp" "pulp" "external-database" "external-redis" "test-s3"
                objStorageFromClowder)).1 }] := by
  have hv : "/apis/" ++ pulpAPIVersion = "/apis/repo-manager.pulpproject.org/v1alpha1" := by
    decide
  have hobj : createObjStorage_secretData objStorageFromClowder
      = .ret [("s3-access-key-id", "test"), ("s3-secret-access-key", "test"),
          ("s3-bucket-name", "pulp"), ("s3-region", "us-east-1")] := by decide
  refine ⟨rfl, rfl, ?_, rfl, fun _ _ _ _ _ => rfl, ?_⟩
  · unfold createObjStorage
    cases createObjStorage_secretData obj <;> rfl
  · simp [main, Run.andThen, createDBSecret, createRedisSecret, createObjStorage, hobj,
      createSampleCR, hv, crName, namespaceName, externalDBSecretName, externalRedisSecretName,
      s3SecretName]

end PulpClowder
